import Mathlib

/-
Verification of the cherry-pick conflict-detection and PR-materialization
pipeline (internal/tools/github/client.go and the tool wrappers).

The remote host is modelled as an environment record giving the response of
each network call the pipeline makes during one invocation; the pipeline is
embedded as pure functions from that environment to a result together with a
trace of the remote mutations it performs (probe creation, probe close,
branch-ref creation, pull-request creation) and of the fixed polling sleeps.
Read-only calls (fetching a pull request, listing commits, reading refs) are
not recorded in the trace since they mutate nothing.  The environment is
fixed for the duration of one invocation, modelling a host whose replies to
the calls of that invocation are determined when it starts.
-/

namespace Kinetic

/-- A commit as reported by the host: hash plus parent-hash list.  The Go
client distinguishes a nil parent slice from an empty one, so the parent
list is optional. -/
structure Commit where
  sha : String
  parents : Option (List String)
deriving DecidableEq

/-- A pull request snapshot as held by the client.  `mergedAt` is the merge
timestamp in seconds (null means not merged); `headRef` is the head branch
name, with the empty string standing for an absent head ref, as in the Go
accessor `pr.GetHead().GetRef()`. -/
structure PullRequest where
  number : Nat
  title : String
  authorLogin : String
  headRef : String
  mergedAt : Option Int
  mergeCommitSHA : String
  htmlURL : String
deriving DecidableEq

/-- The host-computed mergeability snapshot of a probe pull request:
a three-valued mergeable flag and an optional state descriptor. -/
structure ProbeStatus where
  mergeable : Option Bool
  mergeableState : Option String
deriving DecidableEq

/-- Remote mutations and waits performed by one invocation, in order.
`createProbe` records the head and base of the probe pull request the check
opens; `closeProbe` records the probe number whose close is attempted;
`createRef` records a branch ref creation (name and source sha);
`createPullRequest` records a real pull-request creation (head, base,
title). -/
inductive Action where
  | sleep (seconds : Nat)
  | createProbe (head base : String)
  | closeProbe (number : Nat)
  | createRef (name sha : String)
  | createPullRequest (head base title : String)
deriving DecidableEq

/-- The host's replies to the calls one invocation makes.  Each field is the
result of the corresponding API call in client.go: `getPullRequest` for
`PullRequests.Get` on the argument PR, `listCommits` for
`PullRequests.ListCommits`, `createProbe` for the `PullRequests.Create` that
opens the probe, `firstProbeGet`/`secondProbeGet` for the two
`PullRequests.Get` polls on the probe, `getTargetRef`/`getExistingRef` for
the two `Git.GetRef` calls, `createRef` for `Git.CreateRef`, and
`createPullRequest` for the `PullRequests.Create` that opens the real
cherry-pick pull request.  `ctxCancelled` records whether the caller's
request context is cancelled. -/
structure Env where
  ctxCancelled : Bool
  getPullRequest : Except String PullRequest
  listCommits : Except String (List Commit)
  createProbe : Except String Nat
  firstProbeGet : Except String ProbeStatus
  secondProbeGet : Except String ProbeStatus
  getTargetRef : Except String String
  createRef : Except String Unit
  getExistingRef : Except String String
  createPullRequest : Except String PullRequest

/-- The filtering condition of GetPullRequestCommits:
`commit.Parents != nil && len(commit.Parents) == 1`. -/
def isCherryPickable (c : Commit) : Bool :=
  match c.parents with
  | some ps => ps.length == 1
  | none => false

/-- The commit-filtering loop of GetPullRequestCommits: keep, in order, the
commits whose parent list is present and has exactly one element. -/
def filterCommits (cs : List Commit) : List Commit :=
  cs.filter isCherryPickable

/-- GetPullRequestCommits: list the PR commits and filter them. -/
def getPullRequestCommits (env : Env) : Except String (List Commit) :=
  match env.listCommits with
  | .error e => .error ("failed to get PR commits: " ++ e)
  | .ok cs => .ok (filterCommits cs)

/-- Detail string produced when the probe is not mergeable. -/
def cannotMergeMsg (prNumber : Nat) (targetBranch : String) : String :=
  "PR #" ++ toString prNumber ++ " commits cannot be cleanly merged into " ++ targetBranch

/-- Detail string naming the mergeable-state descriptor. -/
def mergeableStateMsg (s : String) : String :=
  "Mergeable state: " ++ s

/-- The detail list built when a poll reports the probe not mergeable: the
cannot-merge message, then the state descriptor when available. -/
def conflictDetailsOf (prNumber : Nat) (targetBranch : String) (st : ProbeStatus) : List String :=
  cannotMergeMsg prNumber targetBranch ::
    (match st.mergeableState with
     | some s => [mergeableStateMsg s]
     | none => [])

/-- Detail string of the fail-safe branch where mergeability stays unknown. -/
def unknownMergeabilityMsg : String :=
  "Unable to determine mergeability status - assuming conflicts exist"

/-- Caution detail returned when probe creation itself fails. -/
def cautionMsg (headRef : String) : String :=
  "Cannot check conflicts: original PR head branch \x27" ++ headRef ++
    "\x27 may have been deleted. Proceed with caution."

/-- The part of CheckCherryPickConflicts that runs once the probe pull
request exists: sleep 3 seconds, fetch the probe; on fetch failure close the
probe and fail; otherwise interpret the mergeable flag, re-polling once
(sleep 2 seconds, second fetch) when it is still null, assuming conflicts
when it stays unknown; finally close the probe.  The sleeps are
`time.Sleep` calls: they take the fixed duration regardless of
`env.ctxCancelled`, exactly as in the source. -/
def probePhase (env : Env) (probeNumber prNumber : Nat) (targetBranch : String) :
    Except String (Bool × List String) × List Action :=
  match env.firstProbeGet with
  | .error e =>
    (.error ("failed to get test PR status: " ++ e),
     [.sleep 3, .closeProbe probeNumber])
  | .ok st =>
    match st.mergeable with
    | some m =>
      if m then
        (.ok (false, []), [.sleep 3, .closeProbe probeNumber])
      else
        (.ok (true, conflictDetailsOf prNumber targetBranch st),
         [.sleep 3, .closeProbe probeNumber])
    | none =>
      match env.secondProbeGet with
      | .ok st2 =>
        match st2.mergeable with
        | some m =>
          if m then
            (.ok (false, []), [.sleep 3, .sleep 2, .closeProbe probeNumber])
          else
            (.ok (true, conflictDetailsOf prNumber targetBranch st2),
             [.sleep 3, .sleep 2, .closeProbe probeNumber])
        | none =>
          (.ok (true, [unknownMergeabilityMsg]),
           [.sleep 3, .sleep 2, .closeProbe probeNumber])
      | .error _ =>
        (.ok (true, [unknownMergeabilityMsg]),
         [.sleep 3, .sleep 2, .closeProbe probeNumber])

/-- CheckCherryPickConflicts: fetch the PR, require it merged, require a
non-empty cherry-pickable commit list and a head ref, then open a probe
pull request from the head ref onto the target branch.  If probe creation
fails, report no conflicts with a caution detail and return at once.
Otherwise run the polling phase.  The `baseBranch` parameter is accepted
but, as in the source, never read. -/
def checkCherryPickConflicts (env : Env) (prNumber : Nat) (targetBranch baseBranch : String) :
    Except String (Bool × List String) × List Action :=
  match env.getPullRequest with
  | .error e => (.error ("failed to get PR #" ++ toString prNumber ++ ": " ++ e), [])
  | .ok pr =>
    match pr.mergedAt with
    | none => (.error ("PR #" ++ toString prNumber ++ " is not merged"), [])
    | some _ =>
      match getPullRequestCommits env with
      | .error e => (.error e, [])
      | .ok commits =>
        if commits.isEmpty then
          (.error ("PR #" ++ toString prNumber ++ " has no commits to cherry-pick"), [])
        else if pr.headRef = "" then
          (.error ("PR #" ++ toString prNumber ++ " does not have a head ref"), [])
        else
          match env.createProbe with
          | .error _ => (.ok (false, [cautionMsg pr.headRef]), [])
          | .ok probeNumber =>
            let r := probePhase env probeNumber prNumber targetBranch
            (r.1, .createProbe pr.headRef targetBranch :: r.2)

/-- The deterministic cherry-pick branch name. -/
def cherryPickBranchName (prNumber : Nat) (targetBranch : String) : String :=
  "cherry-pick-" ++ toString prNumber ++ "-to-" ++ targetBranch

/-- The generated cherry-pick pull-request title.  (The generated body is a
documentation string not examined by any property and is elided.) -/
def cherryPickTitle (prNumber : Nat) (targetBranch : String) (pr : PullRequest) : String :=
  "[" ++ cherryPickBranchName prNumber targetBranch ++ "] " ++ pr.title

/-- The final step of CreateCherryPickPR: create the real cherry-pick pull
request with head = cherry-pick branch and base = target branch, surfacing
a creation failure verbatim. -/
def finishCreate (env : Env) (prNumber : Nat) (targetBranch : String) (pr : PullRequest) :
    Except String PullRequest × List Action :=
  match env.createPullRequest with
  | .error e => (.error ("failed to create cherry-pick PR: " ++ e), [])
  | .ok created =>
    (.ok created,
     [.createPullRequest (cherryPickBranchName prNumber targetBranch) targetBranch
        (cherryPickTitle prNumber targetBranch pr)])

/-- The mutation phase of CreateCherryPickPR after the conflict re-check
succeeds without conflicts: read the target branch tip (failure is an
error), create the cherry-pick branch ref at it, falling back to reading an
already-existing ref of that name, then open the real pull request. -/
def materializePhase (env : Env) (prNumber : Nat) (targetBranch : String) (pr : PullRequest) :
    Except String PullRequest × List Action :=
  match env.getTargetRef with
  | .error e =>
    (.error ("failed to get target branch " ++ targetBranch ++ ": " ++ e), [])
  | .ok targetSHA =>
    match env.createRef with
    | .ok _ =>
      let fin := finishCreate env prNumber targetBranch pr
      (fin.1, .createRef (cherryPickBranchName prNumber targetBranch) targetSHA :: fin.2)
    | .error e =>
      match env.getExistingRef with
      | .error _ =>
        (.error ("failed to create branch " ++ cherryPickBranchName prNumber targetBranch
            ++ ": " ++ e), [])
      | .ok _ => finishCreate env prNumber targetBranch pr

/-- CreateCherryPickPR: re-validate the PR (merged, non-empty cherry-pickable
commit list), re-run the full conflict check, fail with the conflict error
carrying the first detail (or "Unknown conflicts") when conflicts are
reported, and otherwise materialize the branch and pull request.  The
`baseBranch` parameter is accepted but, as in the source, never read. -/
def createCherryPickPR (env : Env) (prNumber : Nat) (targetBranch baseBranch : String) :
    Except String PullRequest × List Action :=
  match env.getPullRequest with
  | .error e => (.error ("failed to get PR #" ++ toString prNumber ++ ": " ++ e), [])
  | .ok pr =>
    match pr.mergedAt with
    | none => (.error ("PR #" ++ toString prNumber ++ " is not merged"), [])
    | some _ =>
      match getPullRequestCommits env with
      | .error e => (.error e, [])
      | .ok commits =>
        if commits.isEmpty then
          (.error ("PR #" ++ toString prNumber ++ " has no commits to cherry-pick"), [])
        else
          let chk := checkCherryPickConflicts env prNumber targetBranch baseBranch
          match chk.1 with
          | .error e => (.error ("failed to check for conflicts: " ++ e), chk.2)
          | .ok (hasConflicts, conflictDetails) =>
            if hasConflicts then
              (.error ("cannot cherry-pick PR #" ++ toString prNumber ++ " to " ++
                  targetBranch ++ ": " ++ conflictDetails.headD "Unknown conflicts"),
               chk.2)
            else
              let mat := materializePhase env prNumber targetBranch pr
              (mat.1, chk.2 ++ mat.2)

/-- The check_cherry_pick_conflicts tool wrapper: default an empty
base_branch to "main", count the cherry-pickable commits, run the check and
return (has_conflicts, details, commits). -/
def checkConflictsToolRun (env : Env) (prNumber : Nat) (targetBranch baseBranch : String) :
    Except String (Bool × List String × Nat) × List Action :=
  let base := if baseBranch = "" then "main" else baseBranch
  match getPullRequestCommits env with
  | .error e => (.error e, [])
  | .ok commits =>
    let r := checkCherryPickConflicts env prNumber targetBranch base
    match r.1 with
    | .error e => (.error e, r.2)
    | .ok (hc, details) => (.ok (hc, details, commits.length), r.2)

/-- The create_cherry_pick_pr tool wrapper: default an empty base_branch to
"main", run CreateCherryPickPR and return (pr_number, title, url, branch). -/
def createCherryPickToolRun (env : Env) (prNumber : Nat) (targetBranch baseBranch : String) :
    Except String (Nat × String × String × String) × List Action :=
  let base := if baseBranch = "" then "main" else baseBranch
  let r := createCherryPickPR env prNumber targetBranch base
  match r.1 with
  | .error e => (.error e, r.2)
  | .ok created => (.ok (created.number, created.title, created.htmlURL, created.headRef), r.2)

/-- The merge-discovery environment: a fixed clock reading and the host's
reply to the closed-PR listing call for each page number (the page of pull
requests together with the next-page number, 0 meaning no further pages). -/
structure ListEnv where
  now : Int
  pages : Nat → Except String (List PullRequest × Nat)

/-- The per-entry window filter of ListMergedPullRequests:
`pr.MergedAt != nil && pr.MergedAt.After(cutoffDate)` — the merge timestamp
is non-null and strictly after the cutoff. -/
def mergedInWindow (cutoff : Int) (pr : PullRequest) : Bool :=
  match pr.mergedAt with
  | some m => decide (cutoff < m)
  | none => false

/-- The paging loop of ListMergedPullRequests: fetch a page of closed pull
requests, filter it against the cutoff `now - days·86400` (calendar
day-subtraction modelled as fixed-length days), and continue with the
host-reported next page until the host reports 0.  `fuel` bounds the number
of pages fetched; running out of fuel (a host that never reports a last
page) yields `none`.  The second component lists the page numbers fetched. -/
def listLoop (env : ListEnv) (days : Int) (fuel page : Nat) (acc : List PullRequest) :
    Option (Except String (List PullRequest)) × List Nat :=
  match fuel with
  | 0 => (none, [])
  | f + 1 =>
    match env.pages page with
    | .error e => (some (.error ("failed to list merged PRs: " ++ e)), [page])
    | .ok (prs, next) =>
      let cutoff := env.now - days * 86400
      let acc2 := acc ++ prs.filter (mergedInWindow cutoff)
      if next = 0 then (some (.ok acc2), [page])
      else
        let r := listLoop env days f next acc2
        (r.1, page :: r.2)

/-- ListMergedPullRequests: run the paging loop from the first page. -/
def listMergedPullRequests (env : ListEnv) (days : Int) (fuel : Nat) :
    Option (Except String (List PullRequest)) × List Nat :=
  listLoop env days fuel 0 []

/-- True exactly on probe-close actions. -/
def isCloseAct : Action → Bool
  | .closeProbe _ => true
  | _ => false

/-- True exactly on probe-creation actions. -/
def isCreateProbeAct : Action → Bool
  | .createProbe _ _ => true
  | _ => false

/-- True exactly on branch-ref-creation actions. -/
def isCreateRefAct : Action → Bool
  | .createRef _ _ => true
  | _ => false

/-- True exactly on real pull-request-creation actions. -/
def isCreatePRAct : Action → Bool
  | .createPullRequest _ _ _ => true
  | _ => false

/-- True when the action, if it opens a pull request (probe or real), opens
it with base = the given target branch. -/
def actionBaseIsTarget (t : String) : Action → Bool
  | .createProbe _ base => base = t
  | .createPullRequest _ base _ => base = t
  | _ => true

/-- A concrete merged pull request used to evaluate the pipeline. -/
def prW : PullRequest :=
  { number := 1, title := "fix bug", authorLogin := "octo", headRef := "feat",
    mergedAt := some 100, mergeCommitSHA := "abc123", htmlURL := "https://example/pr/1" }

/-- A concrete single-parent commit. -/
def cW : Commit := { sha := "c1", parents := some ["p0"] }

/-- A probe status whose mergeable flag is still unknown. -/
def stNone : ProbeStatus := { mergeable := none, mergeableState := none }

/-- A probe status reporting conflicts with a state descriptor. -/
def stConflict : ProbeStatus := { mergeable := some false, mergeableState := some "dirty" }

/-- A probe status reporting a clean merge. -/
def stClean : ProbeStatus := { mergeable := some true, mergeableState := some "clean" }

/-- A host on which every call of one invocation succeeds and the probe is
immediately reported mergeable. -/
def baseEnv : Env :=
  { ctxCancelled := false,
    getPullRequest := .ok prW,
    listCommits := .ok [cW],
    createProbe := .ok 9,
    firstProbeGet := .ok stClean,
    secondProbeGet := .ok stClean,
    getTargetRef := .ok "sha1",
    createRef := .ok (),
    getExistingRef := .ok "sha1",
    createPullRequest := .ok prW }

/-- Host for the probe-lifecycle evaluation. -/
def envW1 : Env := baseEnv

/-- Host whose first poll reports the probe conflicting. -/
def envW2 : Env := { baseEnv with firstProbeGet := .ok stConflict }

/-- Host whose first poll is inconclusive and whose second reports
conflicts. -/
def envW3 : Env :=
  { baseEnv with firstProbeGet := .ok stNone, secondProbeGet := .ok stConflict }

/-- Host on which probe creation fails (head branch deleted). -/
def envW7 : Env := { baseEnv with createProbe := .error "head branch deleted" }

/-- Host with an already-cancelled request context whose mergeable flag
never materializes. -/
def envW8 : Env :=
  { baseEnv with
    ctxCancelled := true
    firstProbeGet := .ok stNone
    secondProbeGet := .error "context canceled" }

/-- Host on which probe creation fails but every materialization call
succeeds. -/
def envW10 : Env := { baseEnv with createProbe := .error "head branch deleted" }

/-- A pull request merged exactly at the discovery cutoff
`now - 7 * 86400` of the host below. -/
def prC4 : PullRequest :=
  { number := 10, title := "boundary", authorLogin := "octo", headRef := "h",
    mergedAt := some 395200, mergeCommitSHA := "s10", htmlURL := "https://example/pr/10" }

/-- A discovery host with a single page holding only `prC4`. -/
def envC4 : ListEnv := { now := 1000000, pages := fun _ => .ok ([prC4], 0) }

/-- A pull request merged strictly before the cutoff of the host below. -/
def prOld5 : PullRequest :=
  { number := 11, title := "old", authorLogin := "octo", headRef := "h",
    mergedAt := some 395100, mergeCommitSHA := "s11", htmlURL := "https://example/pr/11" }

/-- A discovery host whose first page holds only entries older than the
cutoff and still reports a further page. -/
def envC5 : ListEnv :=
  { now := 1000000,
    pages := fun p => if p = 0 then .ok ([prOld5], 1) else .ok ([], 0) }

/-- A commit with an empty (zero-element) parent list. -/
def zeroParentCommit : Commit := { sha := "c0", parents := some [] }

/-- A commit with exactly one parent. -/
def oneParentCommit : Commit := { sha := "c1", parents := some ["p1"] }

/-- A merge commit with two parents. -/
def twoParentCommit : Commit := { sha := "m", parents := some ["a", "b"] }

/-- The polling phase leaves one of exactly two traces: one sleep then the
close, or two sleeps then the close. -/
lemma probePhase_trace_shape (env : Env) (p n : Nat) (t : String) :
    (probePhase env p n t).2 = [Action.sleep 3, Action.closeProbe p] ∨
    (probePhase env p n t).2 = [Action.sleep 3, Action.sleep 2, Action.closeProbe p] := by
  rcases hf : env.firstProbeGet with e | st
  · simp [probePhase, hf]
  · rcases hm : st.mergeable with _ | m
    · rcases hs : env.secondProbeGet with e2 | st2
      · simp [probePhase, hf, hm, hs]
      · rcases hm2 : st2.mergeable with _ | m2
        · simp [probePhase, hf, hm, hs, hm2]
        · cases m2 <;> simp [probePhase, hf, hm, hs, hm2]
    · cases m <;> simp [probePhase, hf, hm]

/-- The conflict check leaves either an empty trace or a probe creation
followed by a polling-phase trace. -/
lemma check_trace_shape (env : Env) (n : Nat) (t b : String) :
    (checkCherryPickConflicts env n t b).2 = [] ∨
    ∃ p pr, env.createProbe = .ok p ∧ env.getPullRequest = .ok pr ∧
      (checkCherryPickConflicts env n t b).2 =
        Action.createProbe pr.headRef t :: (probePhase env p n t).2 := by
  rcases hg : env.getPullRequest with e | pr
  · simp [checkCherryPickConflicts, hg]
  · rcases hm : pr.mergedAt with _ | mt
    · simp [checkCherryPickConflicts, hg, hm]
    · rcases hcs : getPullRequestCommits env with e | cs
      · simp [checkCherryPickConflicts, hg, hm, hcs]
      · by_cases he : cs.isEmpty
        · simp [checkCherryPickConflicts, hg, hm, hcs, he]
        · by_cases hh : pr.headRef = ""
          · simp [checkCherryPickConflicts, hg, hm, hcs, he, hh]
          · rcases hp : env.createProbe with e | p
            · simp [checkCherryPickConflicts, hg, hm, hcs, he, hh, hp]
            · exact Or.inr ⟨p, pr, rfl, rfl,
                by simp [checkCherryPickConflicts, hg, hm, hcs, he, hh, hp]⟩

/-- Every trace of the conflict check contains the same number of probe
closes as probe creations, no branch-ref creation and no real pull-request
creation, and at most the target branch as a pull-request base. -/
lemma check_trace_actions (env : Env) (n : Nat) (t b : String) :
    ((checkCherryPickConflicts env n t b).2).countP isCloseAct =
      ((checkCherryPickConflicts env n t b).2).countP isCreateProbeAct ∧
    (∀ a ∈ (checkCherryPickConflicts env n t b).2,
      isCreateRefAct a = false ∧ isCreatePRAct a = false ∧ actionBaseIsTarget t a = true) := by
  rcases check_trace_shape env n t b with h | ⟨p, pr, _, _, h⟩
  · rw [h]; simp
  · rw [h]
    rcases probePhase_trace_shape env p n t with h2 | h2 <;> rw [h2] <;>
      constructor <;>
      simp [List.countP_cons, isCloseAct, isCreateProbeAct, isCreateRefAct, isCreatePRAct,
        actionBaseIsTarget]

/-- If the conflict check returns a result (rather than an error), its
pre-validations all passed: the PR was fetched, is merged, and has a
non-empty cherry-pickable commit list. -/
lemma check_ok_inv (env : Env) (n : Nat) (t b : String) (hc : Bool) (det : List String)
    (h : (checkCherryPickConflicts env n t b).1 = .ok (hc, det)) :
    ∃ pr mt cs, env.getPullRequest = .ok pr ∧ pr.mergedAt = some mt ∧
      getPullRequestCommits env = .ok cs ∧ cs.isEmpty = false := by
  rcases hg : env.getPullRequest with e | pr
  · simp [checkCherryPickConflicts, hg] at h
  · rcases hm : pr.mergedAt with _ | mt
    · simp [checkCherryPickConflicts, hg, hm] at h
    · rcases hcs : getPullRequestCommits env with e | cs
      · simp [checkCherryPickConflicts, hg, hm, hcs] at h
      · by_cases he : cs.isEmpty
        · simp [checkCherryPickConflicts, hg, hm, hcs, he] at h
        · exact ⟨pr, mt, cs, rfl, hm, rfl, by simpa using he⟩

/-- CreateCherryPickPR's trace is empty, exactly the conflict check's trace,
or the check's trace followed by the materialization trace. -/
lemma create_trace_eq (env : Env) (n : Nat) (t b : String) :
    (createCherryPickPR env n t b).2 = [] ∨
    (createCherryPickPR env n t b).2 = (checkCherryPickConflicts env n t b).2 ∨
    ∃ pr, env.getPullRequest = .ok pr ∧
      (createCherryPickPR env n t b).2 =
        (checkCherryPickConflicts env n t b).2 ++ (materializePhase env n t pr).2 := by
  rcases hg : env.getPullRequest with e | pr
  · left; simp [createCherryPickPR, hg]
  · rcases hm : pr.mergedAt with _ | mt
    · left; simp [createCherryPickPR, hg, hm]
    · rcases hcs : getPullRequestCommits env with e | cs
      · left; simp [createCherryPickPR, hg, hm, hcs]
      · by_cases he : cs.isEmpty
        · left; simp [createCherryPickPR, hg, hm, hcs, he]
        · rcases hchk : (checkCherryPickConflicts env n t b).1 with e | r
          · right; left; simp [createCherryPickPR, hg, hm, hcs, he, hchk]
          · rcases r with ⟨hc, det⟩
            cases hc
            · right; right
              exact ⟨pr, rfl, by simp [createCherryPickPR, hg, hm, hcs, he, hchk]⟩
            · right; left; simp [createCherryPickPR, hg, hm, hcs, he, hchk]

/-- Every action of the materialization phase that opens a pull request
opens it with base = the target branch. -/
lemma materialize_trace_base (env : Env) (n : Nat) (t : String) (pr : PullRequest) :
    ∀ a ∈ (materializePhase env n t pr).2, actionBaseIsTarget t a = true := by
  rcases ht : env.getTargetRef with e | sha
  · simp [materializePhase, ht]
  · rcases hr : env.createRef with e | u
    · rcases hx : env.getExistingRef with e2 | s2
      · simp [materializePhase, ht, hr, hx]
      · rcases hc : env.createPullRequest with e3 | created
        · simp [materializePhase, finishCreate, ht, hr, hx, hc]
        · simp [materializePhase, finishCreate, ht, hr, hx, hc, actionBaseIsTarget]
    · rcases hc : env.createPullRequest with e3 | created
      · simp [materializePhase, finishCreate, ht, hr, hc, actionBaseIsTarget]
      · simp [materializePhase, finishCreate, ht, hr, hc, actionBaseIsTarget]

/-- Every action of CreateCherryPickPR that opens a pull request opens it
with base = the target branch. -/
lemma create_trace_base (env : Env) (n : Nat) (t b : String) :
    ∀ a ∈ (createCherryPickPR env n t b).2, actionBaseIsTarget t a = true := by
  rcases create_trace_eq env n t b with h | h | ⟨pr, _, h⟩ <;> rw [h]
  · simp
  · exact fun a ha => ((check_trace_actions env n t b).2 a ha).2.2
  · intro a ha
    rcases List.mem_append.mp ha with ha | ha
    · exact ((check_trace_actions env n t b).2 a ha).2.2
    · exact materialize_trace_base env n t pr a ha

/-- Which pages the discovery loop fetches depends only on the host's
next-page pointers and the fuel: it is independent of the clock, the
lookback window and the accumulator. -/
lemma listLoop_pages_independent (env : ListEnv) (n2 d1 d2 : Int) :
    ∀ (fuel page : Nat) (acc1 acc2 : List PullRequest),
      (listLoop env d1 fuel page acc1).2 =
        (listLoop { env with now := n2 } d2 fuel page acc2).2 := by
  intro fuel
  induction fuel with
  | zero => intro page acc1 acc2; rfl
  | succ f ih =>
    intro page acc1 acc2
    rcases hp : env.pages page with e | pr
    · simp [listLoop, hp]
    · rcases pr with ⟨prs, next⟩
      by_cases hn : next = 0
      · simp [listLoop, hp, hn]
      · simp [listLoop, hp, hn]
        exact ih next _ _

/-- Claim C1: in every invocation of the conflict check in which the probe
pull request is successfully created (a probe-creation action appears in
the trace), the probe is closed exactly once before the function returns,
on every exit path — normal, poll-timeout, and the early return where
re-fetching the probe status fails — so no probe is ever left open. -/
theorem probe_closed_exactly_once (env : Env) (n : Nat) (t b hr hb : String)
    (h : Action.createProbe hr hb ∈ (checkCherryPickConflicts env n t b).2) :
    ((checkCherryPickConflicts env n t b).2).countP isCloseAct = 1 := by
  rcases check_trace_shape env n t b with hs | ⟨p, pr, _, _, hs⟩
  · rw [hs] at h; simp at h
  · rw [hs]
    rcases probePhase_trace_shape env p n t with h2 | h2 <;> rw [h2] <;>
      simp [List.countP_cons, isCloseAct]

/-- Witness for C1 on a concrete host whose probe is created and reported
mergeable at once. -/
theorem probe_closed_exactly_once_witness :
    ((checkCherryPickConflicts envW1 1 "release-1" "main").2).countP isCloseAct = 1 :=
  probe_closed_exactly_once envW1 1 "release-1" "main" "feat" "release-1" (by decide)

/-- Claim C7: when probe creation itself fails, the conflict check does not
return an error: it returns immediately with hasConflicts = false and a
single caution detail naming the head ref, and performs no cleanup (its
trace is empty: no probe, no sleep, no close). -/
theorem probe_creation_failure_caution (env : Env) (n : Nat) (t b : String)
    (pr : PullRequest) (mt : Int) (cs : List Commit) (e : String)
    (hg : env.getPullRequest = .ok pr) (hm : pr.mergedAt = some mt)
    (hcs : getPullRequestCommits env = .ok cs) (hne : cs.isEmpty = false)
    (hh : ¬ pr.headRef = "") (hp : env.createProbe = .error e) :
    checkCherryPickConflicts env n t b = (.ok (false, [cautionMsg pr.headRef]), []) := by
  simp [checkCherryPickConflicts, hg, hm, hcs, hne, hh, hp]

/-- Witness for C7 on a concrete host whose probe creation fails. -/
theorem probe_creation_failure_caution_witness :
    checkCherryPickConflicts envW7 1 "release-1" "main" =
      (.ok (false, [cautionMsg "feat"]), []) :=
  probe_creation_failure_caution envW7 1 "release-1" "main" prW 100 [cW]
    "head branch deleted" rfl rfl rfl rfl (by decide) rfl

/-- Claim C8 (evaluating the code at the failing input): on a host whose
request context is already cancelled, the two polling waits still run for
their full fixed durations — the trace records the unconditional 3-second
and 2-second sleeps, which never consult the context. -/
theorem sleeps_ignore_cancelled_context :
    envW8.ctxCancelled = true ∧
    (checkCherryPickConflicts envW8 1 "release-1" "main").2 =
      [Action.createProbe "feat" "release-1", Action.sleep 3, Action.sleep 2,
       Action.closeProbe 9] :=
  ⟨rfl, rfl⟩

/-- Claim C9: the baseBranch argument is never used — for any two values
(empty or not) the results, errors and traces of the conflict check, the
materializer and both tool wrappers are identical, and every pull request
either function opens (probe or real) has the target branch as base. -/
theorem base_branch_never_used (env : Env) (n : Nat) (t b1 b2 : String) :
    checkCherryPickConflicts env n t b1 = checkCherryPickConflicts env n t b2 ∧
    createCherryPickPR env n t b1 = createCherryPickPR env n t b2 ∧
    checkConflictsToolRun env n t b1 = checkConflictsToolRun env n t b2 ∧
    createCherryPickToolRun env n t b1 = createCherryPickToolRun env n t b2 ∧
    (∀ a ∈ (checkCherryPickConflicts env n t b1).2, actionBaseIsTarget t a = true) ∧
    (∀ a ∈ (createCherryPickPR env n t b1).2, actionBaseIsTarget t a = true) :=
  ⟨rfl, rfl, rfl, rfl,
   fun a ha => ((check_trace_actions env n t b1).2 a ha).2.2,
   create_trace_base env n t b1⟩

/-- Claim C2: whenever the internal conflict re-check reports
hasConflicts = true, CreateCherryPickPR fails with the conflict error
carrying the first detail string (or "Unknown conflicts" when there are no
details), its trace is exactly the re-check's trace — so no branch ref and
no cherry-pick pull request are created — and every probe created in that
trace is matched by a close. -/
theorem conflict_recheck_blocks_creation (env : Env) (n : Nat) (t b : String)
    (det : List String)
    (h : (checkCherryPickConflicts env n t b).1 = .ok (true, det)) :
    (createCherryPickPR env n t b).1 =
      .error ("cannot cherry-pick PR #" ++ toString n ++ " to " ++ t ++ ": " ++
        det.headD "Unknown conflicts") ∧
    (createCherryPickPR env n t b).2 = (checkCherryPickConflicts env n t b).2 ∧
    (∀ a ∈ (createCherryPickPR env n t b).2,
      isCreateRefAct a = false ∧ isCreatePRAct a = false) ∧
    ((createCherryPickPR env n t b).2).countP isCloseAct =
      ((createCherryPickPR env n t b).2).countP isCreateProbeAct := by
  obtain ⟨pr, mt, cs, hg, hm, hcs, hne⟩ := check_ok_inv env n t b true det h
  have h2 : (createCherryPickPR env n t b).2 = (checkCherryPickConflicts env n t b).2 := by
    simp [createCherryPickPR, hg, hm, hcs, hne, h]
  refine ⟨by simp [createCherryPickPR, hg, hm, hcs, hne, h], h2, ?_, ?_⟩
  · rw [h2]
    exact fun a ha => ⟨((check_trace_actions env n t b).2 a ha).1,
      ((check_trace_actions env n t b).2 a ha).2.1⟩
  · rw [h2]
    exact (check_trace_actions env n t b).1

/-- Witness for C2 on a concrete host whose first poll reports conflicts. -/
theorem conflict_recheck_blocks_creation_witness :
    (createCherryPickPR envW2 1 "release-1" "main").1 =
      .error ("cannot cherry-pick PR #" ++ toString 1 ++ " to " ++ "release-1" ++
        ": " ++ (conflictDetailsOf 1 "release-1" stConflict).headD "Unknown conflicts") :=
  (conflict_recheck_blocks_creation envW2 1 "release-1" "main"
    (conflictDetailsOf 1 "release-1" stConflict) rfl).1

/-- Claim C3: once the probe exists, the mergeable flag is interpreted as
follows.  A first-poll false gives hasConflicts = true with details naming
the state descriptor when available; a first-poll true gives
hasConflicts = false.  When the first poll is inconclusive the second poll
is interpreted the same way, and if the flag is still unknown — the second
poll reports null or its fetch fails — the check fails safe, returning
hasConflicts = true with the could-not-determine detail. -/
theorem mergeable_flag_interpreted (env : Env) (n : Nat) (t b : String)
    (pr : PullRequest) (mt : Int) (cs : List Commit) (p : Nat) (st : ProbeStatus)
    (hg : env.getPullRequest = .ok pr) (hm : pr.mergedAt = some mt)
    (hcs : getPullRequestCommits env = .ok cs) (hne : cs.isEmpty = false)
    (hh : ¬ pr.headRef = "") (hp : env.createProbe = .ok p)
    (hf : env.firstProbeGet = .ok st) :
    (st.mergeable = some false →
      (checkCherryPickConflicts env n t b).1 = .ok (true, conflictDetailsOf n t st)) ∧
    (st.mergeable = some true →
      (checkCherryPickConflicts env n t b).1 = .ok (false, [])) ∧
    (st.mergeable = none →
      (∀ st2, env.secondProbeGet = .ok st2 →
        (st2.mergeable = some false →
          (checkCherryPickConflicts env n t b).1 = .ok (true, conflictDetailsOf n t st2)) ∧
        (st2.mergeable = some true →
          (checkCherryPickConflicts env n t b).1 = .ok (false, [])) ∧
        (st2.mergeable = none →
          (checkCherryPickConflicts env n t b).1 = .ok (true, [unknownMergeabilityMsg]))) ∧
      (∀ e, env.secondProbeGet = .error e →
        (checkCherryPickConflicts env n t b).1 = .ok (true, [unknownMergeabilityMsg]))) := by
  refine ⟨fun hmg => ?_, fun hmg => ?_,
    fun hmg => ⟨fun st2 hs => ⟨fun hmg2 => ?_, fun hmg2 => ?_, fun hmg2 => ?_⟩,
      fun e hs => ?_⟩⟩
  · simp [checkCherryPickConflicts, probePhase, hg, hm, hcs, hne, hh, hp, hf, hmg]
  · simp [checkCherryPickConflicts, probePhase, hg, hm, hcs, hne, hh, hp, hf, hmg]
  · simp [checkCherryPickConflicts, probePhase, hg, hm, hcs, hne, hh, hp, hf, hmg, hs, hmg2]
  · simp [checkCherryPickConflicts, probePhase, hg, hm, hcs, hne, hh, hp, hf, hmg, hs, hmg2]
  · simp [checkCherryPickConflicts, probePhase, hg, hm, hcs, hne, hh, hp, hf, hmg, hs, hmg2]
  · simp [checkCherryPickConflicts, probePhase, hg, hm, hcs, hne, hh, hp, hf, hmg, hs]

/-- Witness for C3 on a concrete host whose first poll is inconclusive and
whose second poll reports conflicts. -/
theorem mergeable_flag_interpreted_witness :
    (checkCherryPickConflicts envW3 1 "release-1" "main").1 =
      .ok (true, conflictDetailsOf 1 "release-1" stConflict) :=
  (((mergeable_flag_interpreted envW3 1 "release-1" "main" prW 100 [cW] 9 stNone
      rfl rfl rfl rfl (by decide) rfl rfl).2.2 rfl).1 stConflict rfl).1 rfl

/-- Claim C10: when, inside CreateCherryPickPR, the re-check's probe
creation fails, the re-check reports hasConflicts = false, so the
materializer does not fail with a conflict error and proceeds to create the
cherry-pick branch and the cherry-pick pull request even though
mergeability was never verified. -/
theorem failed_probe_recheck_proceeds (env : Env) (n : Nat) (t b : String)
    (pr : PullRequest) (mt : Int) (cs : List Commit) (e sha : String)
    (created : PullRequest)
    (hg : env.getPullRequest = .ok pr) (hm : pr.mergedAt = some mt)
    (hcs : getPullRequestCommits env = .ok cs) (hne : cs.isEmpty = false)
    (hh : ¬ pr.headRef = "") (hp : env.createProbe = .error e)
    (ht : env.getTargetRef = .ok sha) (hr : env.createRef = .ok ())
    (hc : env.createPullRequest = .ok created) :
    (checkCherryPickConflicts env n t b).1 = .ok (false, [cautionMsg pr.headRef]) ∧
    createCherryPickPR env n t b =
      (.ok created,
       [Action.createRef (cherryPickBranchName n t) sha,
        Action.createPullRequest (cherryPickBranchName n t) t
          (cherryPickTitle n t pr)]) := by
  constructor
  · simp [checkCherryPickConflicts, hg, hm, hcs, hne, hh, hp]
  · simp [createCherryPickPR, materializePhase, finishCreate, checkCherryPickConflicts,
      hg, hm, hcs, hne, hh, hp, ht, hr, hc]

/-- Witness for C10 on a concrete host whose probe creation fails while all
materialization calls succeed. -/
theorem failed_probe_recheck_proceeds_witness :
    createCherryPickPR envW10 1 "release-1" "main" =
      (.ok prW,
       [Action.createRef (cherryPickBranchName 1 "release-1") "sha1",
        Action.createPullRequest (cherryPickBranchName 1 "release-1") "release-1"
          (cherryPickTitle 1 "release-1" prW)]) :=
  (failed_probe_recheck_proceeds envW10 1 "release-1" "main" prW 100 [cW]
    "head branch deleted" "sha1" prW rfl rfl rfl rfl (by decide) rfl rfl rfl rfl).2

/-- Counterexample to claim C4: on a host whose only closed pull request is
merged exactly at `now - days` (days = 7), discovery returns the empty
list — the boundary instant is excluded, not included. -/
theorem discovery_boundary_cex :
    prC4.mergedAt = some (envC4.now - 7 * 86400) ∧
    listMergedPullRequests envC4 7 5 = (some (.ok []), [0]) :=
  ⟨rfl, rfl⟩

/-- Claim C4 as amended: the discovery window filter is strict — an entry
is kept iff its merge timestamp is non-null and strictly after
`now - days`; a pull request merged exactly at `now - days` is excluded
(and one merged a second earlier is excluded as well). -/
theorem discovery_boundary_strict (env : ListEnv) (days : Int) (fuel : Nat)
    (prs : List PullRequest) (h : env.pages 0 = .ok (prs, 0)) :
    listMergedPullRequests env days (fuel + 1) =
      (some (.ok (prs.filter (mergedInWindow (env.now - days * 86400)))), [0]) ∧
    (∀ pr m, pr.mergedAt = some m →
      (mergedInWindow (env.now - days * 86400) pr = true ↔
        env.now - days * 86400 < m)) ∧
    (∀ pr, pr.mergedAt = some (env.now - days * 86400) →
      mergedInWindow (env.now - days * 86400) pr = false) := by
  refine ⟨?_, ?_, ?_⟩
  · simp [listMergedPullRequests, listLoop, h]
  · intro pr m hm
    simp [mergedInWindow, hm]
  · intro pr hm
    simp [mergedInWindow, hm]

/-- Witness for the amended C4 at the concrete boundary host. -/
theorem discovery_boundary_strict_witness :
    mergedInWindow (envC4.now - 7 * 86400) prC4 = false :=
  (discovery_boundary_strict envC4 7 4 [prC4] rfl).2.2 prC4 rfl

/-- Counterexample to claim C5: on a host whose first page holds only an
entry strictly older than the cutoff (days = 7) and which reports a next
page, discovery still fetches page 1 — there is no cutoff-based early stop. -/
theorem pagination_no_cutoff_stop_cex :
    prOld5.mergedAt = some 395100 ∧ (395100 : Int) < envC5.now - 7 * 86400 ∧
    envC5.pages 0 = .ok ([prOld5], 1) ∧
    listMergedPullRequests envC5 7 5 = (some (.ok []), [0, 1]) :=
  ⟨rfl, by decide, rfl, rfl⟩

/-- Claim C5 as amended: discovery pages until the host signals no further
pages (or the page budget runs out); the cutoff never affects pagination —
the fetched page sequence is independent of the clock and the lookback
window — and a page whose next-page signal is 0 is always the last fetch. -/
theorem pagination_host_signal_only (env : ListEnv) :
    (∀ (n2 d1 d2 : Int) (fuel : Nat),
      (listMergedPullRequests env d1 fuel).2 =
        (listMergedPullRequests { env with now := n2 } d2 fuel).2) ∧
    (∀ (prs : List PullRequest) (d : Int) (fuel : Nat),
      env.pages 0 = .ok (prs, 0) →
        (listMergedPullRequests env d (fuel + 1)).2 = [0]) := by
  constructor
  · intro n2 d1 d2 fuel
    exact listLoop_pages_independent env n2 d1 d2 fuel 0 [] []
  · intro prs d fuel h
    simp [listMergedPullRequests, listLoop, h]

/-- Witness for the amended C5 at the single-page host. -/
theorem pagination_host_signal_only_witness :
    (listMergedPullRequests envC4 9 7).2 = [0] :=
  (pagination_host_signal_only envC4).2 [prC4] 9 6 rfl

/-- Counterexample to claim C6: a commit with a present but empty parent
list is not a merge commit (it has fewer than two parents), yet the commit
filter drops it instead of preserving it. -/
theorem filter_drops_zero_parent_cex :
    zeroParentCommit.parents = some [] ∧
    filterCommits [zeroParentCommit] = [] ∧
    zeroParentCommit ∉ filterCommits [zeroParentCommit] :=
  ⟨rfl, rfl, by decide⟩

/-- Claim C6 as amended: the commit filter keeps exactly the commits whose
parent list is present with exactly one entry, preserving their relative
order; commits with two or more parents are excluded, and so are commits
with zero parents or an absent parent list. -/
theorem filter_exactly_one_parent (cs : List Commit) :
    (filterCommits cs).Sublist cs ∧
    (∀ c ∈ filterCommits cs, ∃ ps, c.parents = some ps ∧ ps.length = 1) ∧
    (∀ c ∈ cs, ∀ ps, c.parents = some ps → ps.length = 1 → c ∈ filterCommits cs) ∧
    (∀ c ∈ cs, ∀ ps, c.parents = some ps → 2 ≤ ps.length → c ∉ filterCommits cs) := by
  refine ⟨List.filter_sublist cs, ?_, ?_, ?_⟩
  · intro c hc
    have hk := (List.mem_filter.mp hc).2
    rcases hps : c.parents with _ | ps
    · simp [isCherryPickable, hps] at hk
    · exact ⟨ps, rfl, by simpa [isCherryPickable, hps] using hk⟩
  · intro c hc ps hps hlen
    exact List.mem_filter.mpr ⟨hc, by simp [isCherryPickable, hps, hlen]⟩
  · intro c hc ps hps hlen hmem
    have hk := (List.mem_filter.mp hmem).2
    simp [isCherryPickable, hps] at hk
    omega

/-- Witness for the amended C6: in a list of a merge commit followed by a
one-parent commit, the one-parent commit is kept. -/
theorem filter_exactly_one_parent_witness :
    oneParentCommit ∈ filterCommits [twoParentCommit, oneParentCommit] :=
  (filter_exactly_one_parent [twoParentCommit, oneParentCommit]).2.2.1
    oneParentCommit (by decide) ["p1"] rfl rfl

end Kinetic
